import Mathlib

/-!
# Verification of the vector PMDA task-status core (src/vector.c)

Shallow embedding of the per-(task-type, session) task-status protocol:
the status file store (`getstatus`, `hasstatus`, `rmstatus`), the input
validator (`badinput`), the launch dispatcher (`vector_store`) and the
status resolver (`vector_fetchCallBack`).

Text is modelled as lists of characters (`Str`).  The status-file
directory is modelled as a function from (metric name, context id) to the
optional raw file content; `open`/`read` success corresponds to the key
being present, and the 256-byte read buffer of the callers is modelled by
`BUFSZ` truncation inside `getstatusContent`.
-/

namespace VectorPmda

/-- Character-list strings, the text type of the embedding. -/
abbrev Str := List Char

/-- Coerce a Lean string literal to the embedding's text type. -/
def chars (s : String) : Str := s.data

/-- A PCP context identifier (`pmdaGetContext()`), the per-client session key. -/
abbrev Ctx := Nat

/-- The status-file directory: one optional raw file content per
(metric name, context) key, mirroring
`WORKING_DIR/<metric>/<metric>.<ctx>.status`. -/
abbrev Files := Str → Ctx → Option Str

/-- `VECTOR_DIR` from vector.c, the directory holding the worker scripts. -/
def VECTOR_DIR : Str := chars "/var/lib/pcp/pmdas/vector"

/-- The C enum item `VECTOR_TASK_CPUFLAMEGRAPH`. -/
def VECTOR_TASK_CPUFLAMEGRAPH : Nat := 0
/-- The C enum item `VECTOR_TASK_DISKLATENCYHEATMAP`. -/
def VECTOR_TASK_DISKLATENCYHEATMAP : Nat := 1
/-- The C enum item `VECTOR_TASK_JSTACKFLAMEGRAPH`. -/
def VECTOR_TASK_JSTACKFLAMEGRAPH : Nat := 2
/-- The C enum item `VECTOR_TASK_PNAMECPUFLAMEGRAPH`. -/
def VECTOR_TASK_PNAMECPUFLAMEGRAPH : Nat := 3
/-- The C enum item `VECTOR_TASK_UNINLINEDCPUFLAMEGRAPH`. -/
def VECTOR_TASK_UNINLINEDCPUFLAMEGRAPH : Nat := 4
/-- The C enum item `VECTOR_TASK_PAGEFAULTFLAMEGRAPH`. -/
def VECTOR_TASK_PAGEFAULTFLAMEGRAPH : Nat := 5
/-- The C enum item `VECTOR_TASK_DISKIOFLAMEGRAPH`. -/
def VECTOR_TASK_DISKIOFLAMEGRAPH : Nat := 6
/-- The C enum item `VECTOR_TASK_IPCFLAMEGRAPH`. -/
def VECTOR_TASK_IPCFLAMEGRAPH : Nat := 7
/-- The C enum item `VECTOR_TASK_CSWFLAMEGRAPH`. -/
def VECTOR_TASK_CSWFLAMEGRAPH : Nat := 8
/-- The C enum item `VECTOR_TASK_OFFCPUFLAMEGRAPH`. -/
def VECTOR_TASK_OFFCPUFLAMEGRAPH : Nat := 9
/-- The C enum item `VECTOR_TASK_OFFWAKEFLAMEGRAPH`. -/
def VECTOR_TASK_OFFWAKEFLAMEGRAPH : Nat := 10
/-- The C enum item `VECTOR_TASK_METRIC_COUNT`: number of known task types. -/
def VECTOR_TASK_METRIC_COUNT : Nat := 11

/-- The `tasknames[]` table of vector.c, indexed by the enum items. -/
def tasknames : List Str :=
  [chars "cpuflamegraph",
   chars "disklatencyheatmap",
   chars "jstackflamegraph",
   chars "pnamecpuflamegraph",
   chars "uninlinedcpuflamegraph",
   chars "pagefaultflamegraph",
   chars "diskioflamegraph",
   chars "ipcflamegraph",
   chars "cswflamegraph",
   chars "offcpuflamegraph",
   chars "offwakeflamegraph"]

/-- `tasknames[item]` lookup. -/
def taskname (item : Nat) : Str := tasknames.getD item []

/-- The nine task items grouped in the first `switch` case of both
`vector_store` and `vector_fetchCallBack` (all flamegraph tasks that take
an optional seconds argument and get a synthesized DONE message). -/
def flamegraphItems : List Nat :=
  [VECTOR_TASK_CPUFLAMEGRAPH,
   VECTOR_TASK_PNAMECPUFLAMEGRAPH,
   VECTOR_TASK_UNINLINEDCPUFLAMEGRAPH,
   VECTOR_TASK_PAGEFAULTFLAMEGRAPH,
   VECTOR_TASK_DISKIOFLAMEGRAPH,
   VECTOR_TASK_IPCFLAMEGRAPH,
   VECTOR_TASK_CSWFLAMEGRAPH,
   VECTOR_TASK_OFFCPUFLAMEGRAPH,
   VECTOR_TASK_OFFWAKEFLAMEGRAPH]

/-- Size of the `statusmsg` buffer both callers pass to `getstatus`. -/
def BUFSZ : Nat := 256

/-- Core of `getstatus`: what the function computes from the raw content of
the status file (`none` = the file cannot be opened).  `read` returns
`min length BUFSZ` bytes; only when more than one byte was read is the
buffer used, with its last byte overwritten by NUL ("nuke the \n");
otherwise the sentinel "UNKNOWN" is returned. -/
def getstatusContent (content : Option Str) : Str :=
  match content with
  | none => chars "UNKNOWN"
  | some raw =>
      let sz := min raw.length BUFSZ
      if 1 < sz then raw.take (sz - 1) else chars "UNKNOWN"

/-- `getstatus(metric, buf, bufsz, ctx)`: read the status string for the
key from the status-file directory. -/
def getstatus (files : Files) (metric : Str) (ctx : Ctx) : Str :=
  getstatusContent (files metric ctx)

/-- `hasstatus(metric, ctx)`: true iff the status file exists (opens). -/
def hasstatus (files : Files) (metric : Str) (ctx : Ctx) : Bool :=
  (files metric ctx).isSome

/-- `rmstatus(metric, ctx)`: unlink the status file for the key. -/
def rmstatus (files : Files) (metric : Str) (ctx : Ctx) : Files :=
  fun m c => if m = metric ∧ c = ctx then none else files m c

/-- `badinput(str)`: returns true iff some character of the string is
outside '0'..'9' (the string is passed to `system()`, so only decimal
digits are allowed; the empty string passes). -/
def badinput (s : Str) : Bool :=
  s.any (fun c => decide (c < '0') || decide ('9' < c))

/-- The argument supplied to a store call: `none` models a failed
`pmExtractValue` (leaving `secs = ""`), `some s` a successfully
extracted string value. -/
abbrev StoreArg := Option Str

/-- True iff the extracted argument exists and fails `badinput`. -/
def argBad (arg : StoreArg) : Bool :=
  (arg.map badinput).getD false

/-- Result codes of `vector_store`. -/
inductive StoreRes where
  /-- return 0: the store was accepted. -/
  | accepted
  /-- `PM_ERR_PMID`: unknown metric (InvalidKey). -/
  | errPMID
  /-- `PM_ERR_BADSTORE`: the argument failed validation (InvalidArgument). -/
  | errBadStore
  /-- `PM_ERR_AGAIN`: a run is in flight, try again (Busy). -/
  | errAgain
deriving DecidableEq, Repr

/-- Output of `vector_store`: the result code, the command line handed to
`system()` when a launch was attempted, and whether a launch-failure
message was written to the log (the `fprintf(stderr, ...)` branch). -/
structure StoreOut where
  res : StoreRes
  launched : Option Str
  logged : Bool

/-- The busy test of `vector_store`: a status file exists and its content
is neither exactly "DONE" nor prefixed by "ERROR"
(`strcmp(status, "DONE") != 0 && strstr(status, "ERROR") != status`). -/
def busyCheck (files : Files) (metric : Str) (ctx : Ctx) : Bool :=
  hasstatus files metric ctx &&
    !(getstatus files metric ctx = chars "DONE" : Bool) &&
    !((chars "ERROR").isPrefixOf (getstatus files metric ctx))

/-- `vector_store(result, pmda)`.  Parameters: the PMID cluster and the
value-set count checked up front, the metric item, the client context,
the extracted optional argument, whether `system()` reports failure, and
the status-file directory.  The store never mutates the directory (the
worker creates the record); its effects are the result code, the launched
command and the log line. -/
def vector_store (cluster numval item : Nat) (ctx : Ctx)
    (arg : StoreArg) (sysFails : Bool) (files : Files) : StoreOut :=
  if cluster ≠ 0 then ⟨.errPMID, none, false⟩
  else if numval ≠ 1 then ⟨.errPMID, none, false⟩
  else if item ∈ flamegraphItems then
    let metricname := taskname item
    let secs := arg.getD []
    if argBad arg then ⟨.errBadStore, none, false⟩
    else if busyCheck files metricname ctx then ⟨.errAgain, none, false⟩
    else ⟨.accepted,
          some (VECTOR_DIR ++ chars "/" ++ metricname ++ chars ".sh " ++
                secs ++ chars " &"),
          sysFails⟩
  else if item = VECTOR_TASK_DISKLATENCYHEATMAP then
    if busyCheck files (chars "disklatencyheatmap") ctx then
      ⟨.errAgain, none, false⟩
    else ⟨.accepted, some (VECTOR_DIR ++ chars "/heatmap.sh &"), sysFails⟩
  else if item = VECTOR_TASK_JSTACKFLAMEGRAPH then
    if busyCheck files (chars "jstackflamegraph") ctx then
      ⟨.errAgain, none, false⟩
    else ⟨.accepted, some (VECTOR_DIR ++ chars "/jstack.sh &"), sysFails⟩
  else ⟨.errPMID, none, false⟩

/-- Result codes of `vector_fetchCallBack` (paired with the value string
on success). -/
inductive FetchRes where
  /-- `PMDA_FETCH_STATIC` with `atom->cp = s`. -/
  | ok (s : Str)
  /-- `PM_ERR_PMID`: unknown metric (InvalidKey). -/
  | errPMID
  /-- `PM_ERR_INST`: a non-NULL instance was requested. -/
  | errINST
deriving DecidableEq, Repr

/-- Output of `vector_fetchCallBack`: result and the (possibly updated)
status-file directory. -/
structure FetchOut where
  res : FetchRes
  files : Files

/-- `PM_IN_NULL` (0xffffffff as an unsigned int). -/
def PM_IN_NULL : Nat := 4294967295

/-- Decimal rendering of a context id, as `sprintf("%d", ctx)`. -/
def natstr (n : Nat) : Str := (Nat.repr n).data

/-- The synthesized done message of the flamegraph fetch branch:
`sprintf(statusmsg, "DONE %s/%s.%d.svg", metricname, metricname, ctx)`. -/
def doneMessage (metricname : Str) (ctx : Ctx) : Str :=
  chars "DONE " ++ metricname ++ chars "/" ++ metricname ++ chars "." ++
    natstr ctx ++ chars ".svg"

/-- `vector_fetchCallBack(mdesc, inst, atom)`.  Parameters: the PMID
cluster, the requested instance, the metric item, the client context and
the status-file directory. -/
def vector_fetchCallBack (cluster inst item : Nat) (ctx : Ctx)
    (files : Files) : FetchOut :=
  if cluster ≠ 0 then ⟨.errPMID, files⟩
  else if inst ≠ PM_IN_NULL then ⟨.errINST, files⟩
  else if item ∈ flamegraphItems then
    let metricname := taskname item
    if hasstatus files metricname ctx then
      let s := getstatus files metricname ctx
      if s = chars "DONE" then
        ⟨.ok (doneMessage metricname ctx), rmstatus files metricname ctx⟩
      else ⟨.ok s, files⟩
    else ⟨.ok (chars "IDLE"), files⟩
  else if item = VECTOR_TASK_DISKLATENCYHEATMAP then
    if hasstatus files (chars "disklatencyheatmap") ctx then
      let s := getstatus files (chars "disklatencyheatmap") ctx
      if s = chars "DONE" then
        ⟨.ok s, rmstatus files (chars "disklatencyheatmap") ctx⟩
      else ⟨.ok s, files⟩
    else ⟨.ok (chars "IDLE"), files⟩
  else if item = VECTOR_TASK_JSTACKFLAMEGRAPH then
    if hasstatus files (chars "jstackflamegraph") ctx then
      let s := getstatus files (chars "jstackflamegraph") ctx
      if s = chars "DONE" then
        ⟨.ok s, rmstatus files (chars "jstackflamegraph") ctx⟩
      else ⟨.ok s, files⟩
    else ⟨.ok (chars "IDLE"), files⟩
  else ⟨.errPMID, files⟩

/-- A status record as written by a worker: one line of text ending in a
newline. -/
def recordLine (s : Str) : Str := s ++ ['\n']

/-- The empty status-file directory. -/
def emptyFiles : Files := fun _ _ => none

/-- A status-file directory holding exactly one record. -/
def singleFile (metric : Str) (ctx : Ctx) (content : Str) : Files :=
  fun m c => if m = metric ∧ c = ctx then some content else none

/-! ## Helper lemmas -/

/-- Reading a one-line record of a non-empty status that fits the buffer
yields the status with the trailing newline stripped. -/
theorem getstatusContent_recordLine (s : Str) (h0 : s ≠ [])
    (hlen : s.length + 1 ≤ BUFSZ) :
    getstatusContent (some (recordLine s)) = s := by
  have hpos : 0 < s.length := List.length_pos.mpr h0
  unfold BUFSZ at hlen
  simp only [getstatusContent, recordLine, List.length_append,
    List.length_singleton, BUFSZ]
  rw [min_eq_left hlen, if_pos (by omega)]
  simp [List.take_left s ['\n']]

/-- Every known task item falls in one of the three switch groups. -/
theorem known_item_cases (item : Nat) (h : item < VECTOR_TASK_METRIC_COUNT) :
    item ∈ flamegraphItems ∨ item = VECTOR_TASK_DISKLATENCYHEATMAP ∨
      item = VECTOR_TASK_JSTACKFLAMEGRAPH := by
  unfold VECTOR_TASK_METRIC_COUNT at h
  interval_cases item <;> decide

/-- The metric name of the heatmap item, as hard-coded in its branches. -/
theorem taskname_heatmap :
    taskname VECTOR_TASK_DISKLATENCYHEATMAP = chars "disklatencyheatmap" := rfl

/-- The metric name of the jstack item, as hard-coded in its branches. -/
theorem taskname_jstack :
    taskname VECTOR_TASK_JSTACKFLAMEGRAPH = chars "jstackflamegraph" := rfl

/-- The fetch switch, first group: unfolding for the nine flamegraph
items. -/
theorem fetch_flamegraph_unfold (item : Nat) (h : item ∈ flamegraphItems)
    (ctx : Ctx) (files : Files) :
    vector_fetchCallBack 0 PM_IN_NULL item ctx files =
      (if hasstatus files (taskname item) ctx then
         if getstatus files (taskname item) ctx = chars "DONE" then
           ⟨.ok (doneMessage (taskname item) ctx),
            rmstatus files (taskname item) ctx⟩
         else ⟨.ok (getstatus files (taskname item) ctx), files⟩
       else ⟨.ok (chars "IDLE"), files⟩) := by
  have h0 : ¬ ((0 : Nat) ≠ 0) := by decide
  have h1 : ¬ (PM_IN_NULL ≠ PM_IN_NULL) := by decide
  unfold vector_fetchCallBack
  rw [if_neg h0, if_neg h1, if_pos h]

/-- The fetch switch, heatmap branch: unfolding. -/
theorem fetch_heatmap_unfold (ctx : Ctx) (files : Files) :
    vector_fetchCallBack 0 PM_IN_NULL VECTOR_TASK_DISKLATENCYHEATMAP ctx files =
      (if hasstatus files (chars "disklatencyheatmap") ctx then
         if getstatus files (chars "disklatencyheatmap") ctx = chars "DONE" then
           ⟨.ok (getstatus files (chars "disklatencyheatmap") ctx),
            rmstatus files (chars "disklatencyheatmap") ctx⟩
         else ⟨.ok (getstatus files (chars "disklatencyheatmap") ctx), files⟩
       else ⟨.ok (chars "IDLE"), files⟩) := rfl

/-- The fetch switch, jstack branch: unfolding. -/
theorem fetch_jstack_unfold (ctx : Ctx) (files : Files) :
    vector_fetchCallBack 0 PM_IN_NULL VECTOR_TASK_JSTACKFLAMEGRAPH ctx files =
      (if hasstatus files (chars "jstackflamegraph") ctx then
         if getstatus files (chars "jstackflamegraph") ctx = chars "DONE" then
           ⟨.ok (getstatus files (chars "jstackflamegraph") ctx),
            rmstatus files (chars "jstackflamegraph") ctx⟩
         else ⟨.ok (getstatus files (chars "jstackflamegraph") ctx), files⟩
       else ⟨.ok (chars "IDLE"), files⟩) := rfl

/-- The store switch, first group: unfolding for the nine flamegraph
items. -/
theorem store_flamegraph_unfold (item : Nat) (h : item ∈ flamegraphItems)
    (ctx : Ctx) (arg : StoreArg) (sysFails : Bool) (files : Files) :
    vector_store 0 1 item ctx arg sysFails files =
      (if argBad arg then ⟨.errBadStore, none, false⟩
       else if busyCheck files (taskname item) ctx then ⟨.errAgain, none, false⟩
       else ⟨.accepted,
             some (VECTOR_DIR ++ chars "/" ++ taskname item ++ chars ".sh " ++
                   arg.getD [] ++ chars " &"),
             sysFails⟩) := by
  have h0 : ¬ ((0 : Nat) ≠ 0) := by decide
  have h1 : ¬ ((1 : Nat) ≠ 1) := by decide
  unfold vector_store
  rw [if_neg h0, if_neg h1, if_pos h]

/-- The store switch, heatmap branch: unfolding. -/
theorem store_heatmap_unfold (ctx : Ctx) (arg : StoreArg) (sysFails : Bool)
    (files : Files) :
    vector_store 0 1 VECTOR_TASK_DISKLATENCYHEATMAP ctx arg sysFails files =
      (if busyCheck files (chars "disklatencyheatmap") ctx then
         ⟨.errAgain, none, false⟩
       else ⟨.accepted, some (VECTOR_DIR ++ chars "/heatmap.sh &"), sysFails⟩) := rfl

/-- The store switch, jstack branch: unfolding. -/
theorem store_jstack_unfold (ctx : Ctx) (arg : StoreArg) (sysFails : Bool)
    (files : Files) :
    vector_store 0 1 VECTOR_TASK_JSTACKFLAMEGRAPH ctx arg sysFails files =
      (if busyCheck files (chars "jstackflamegraph") ctx then
         ⟨.errAgain, none, false⟩
       else ⟨.accepted, some (VECTOR_DIR ++ chars "/jstack.sh &"), sysFails⟩) := rfl

/-- Fetch on an absent record returns IDLE and leaves the directory
untouched, for every known task item. -/
theorem fetch_idle (item : Nat) (hitem : item < VECTOR_TASK_METRIC_COUNT)
    (ctx : Ctx) (files : Files)
    (hfile : files (taskname item) ctx = none) :
    vector_fetchCallBack 0 PM_IN_NULL item ctx files = ⟨.ok (chars "IDLE"), files⟩ := by
  rcases known_item_cases item hitem with h | h | h
  · rw [fetch_flamegraph_unfold item h]
    simp [hasstatus, hfile]
  · subst h
    rw [taskname_heatmap] at hfile
    rw [fetch_heatmap_unfold]
    simp [hasstatus, hfile]
  · subst h
    rw [taskname_jstack] at hfile
    rw [fetch_jstack_unfold]
    simp [hasstatus, hfile]

/-- Fetch on a record whose status is not exactly "DONE" returns the
status verbatim and leaves the directory untouched, for every known task
item. -/
theorem fetch_nonDone (item : Nat) (hitem : item < VECTOR_TASK_METRIC_COUNT)
    (ctx : Ctx) (files : Files) (s : Str)
    (hfile : files (taskname item) ctx = some (recordLine s))
    (h0 : s ≠ []) (hlen : s.length + 1 ≤ BUFSZ) (hd : s ≠ chars "DONE") :
    vector_fetchCallBack 0 PM_IN_NULL item ctx files = ⟨.ok s, files⟩ := by
  have hget : getstatusContent (some (recordLine s)) = s :=
    getstatusContent_recordLine s h0 hlen
  rcases known_item_cases item hitem with h | h | h
  · rw [fetch_flamegraph_unfold item h]
    simp [hasstatus, getstatus, hfile, hget, hd]
  · subst h
    rw [taskname_heatmap] at hfile
    rw [fetch_heatmap_unfold]
    simp [hasstatus, getstatus, hfile, hget, hd]
  · subst h
    rw [taskname_jstack] at hfile
    rw [fetch_jstack_unfold]
    simp [hasstatus, getstatus, hfile, hget, hd]

/-- Fetch on a record whose status is exactly "DONE" deletes the record;
the nine flamegraph items return the synthesized message, the heatmap and
jstack items return "DONE" verbatim. -/
theorem fetch_done (item : Nat) (hitem : item < VECTOR_TASK_METRIC_COUNT)
    (ctx : Ctx) (files : Files)
    (hfile : files (taskname item) ctx = some (recordLine (chars "DONE"))) :
    vector_fetchCallBack 0 PM_IN_NULL item ctx files =
      ⟨if item ∈ flamegraphItems then .ok (doneMessage (taskname item) ctx)
        else .ok (chars "DONE"),
       rmstatus files (taskname item) ctx⟩ := by
  have hget : getstatusContent (some (recordLine (chars "DONE"))) = chars "DONE" :=
    getstatusContent_recordLine (chars "DONE") (by decide) (by decide)
  rcases known_item_cases item hitem with h | h | h
  · rw [fetch_flamegraph_unfold item h, if_pos h]
    simp [hasstatus, getstatus, hfile, hget]
  · subst h
    rw [taskname_heatmap] at hfile ⊢
    rw [if_neg (by decide : VECTOR_TASK_DISKLATENCYHEATMAP ∉ flamegraphItems)]
    rw [fetch_heatmap_unfold]
    simp [hasstatus, getstatus, hfile, hget]
  · subst h
    rw [taskname_jstack] at hfile ⊢
    rw [if_neg (by decide : VECTOR_TASK_JSTACKFLAMEGRAPH ∉ flamegraphItems)]
    rw [fetch_jstack_unfold]
    simp [hasstatus, getstatus, hfile, hget]

/-- The busy test on a present one-line record reduces to the status
being neither "DONE" nor prefixed by "ERROR". -/
theorem busyCheck_recordLine (files : Files) (metric : Str) (ctx : Ctx)
    (s : Str) (hfile : files metric ctx = some (recordLine s))
    (h0 : s ≠ []) (hlen : s.length + 1 ≤ BUFSZ) :
    busyCheck files metric ctx =
      (!(s = chars "DONE" : Bool) && !((chars "ERROR").isPrefixOf s)) := by
  have hget : getstatusContent (some (recordLine s)) = s :=
    getstatusContent_recordLine s h0 hlen
  simp [busyCheck, hasstatus, getstatus, hfile, hget]

/-- The store's result on a known item that passes validation is Busy or
Accepted according to the busy test. -/
theorem store_known_res (item : Nat) (hitem : item < VECTOR_TASK_METRIC_COUNT)
    (ctx : Ctx) (arg : StoreArg) (sysFails : Bool) (files : Files)
    (harg : argBad arg = false) :
    (vector_store 0 1 item ctx arg sysFails files).res =
      (if busyCheck files (taskname item) ctx then .errAgain else .accepted) := by
  rcases known_item_cases item hitem with h | h | h
  · rw [store_flamegraph_unfold item h]
    simp only [harg, Bool.false_eq_true, if_false]
    by_cases hb : busyCheck files (taskname item) ctx <;> simp [hb]
  · subst h
    rw [store_heatmap_unfold, taskname_heatmap]
    by_cases hb : busyCheck files (chars "disklatencyheatmap") ctx <;> simp [hb]
  · subst h
    rw [store_jstack_unfold, taskname_jstack]
    by_cases hb : busyCheck files (chars "jstackflamegraph") ctx <;> simp [hb]

/-! ## Claims -/

/-- C6: for every task-type item outside the known set, both store and
fetch reject with InvalidKey (`PM_ERR_PMID`), for every session and
store state. -/
theorem C6_unknown_item_invalid_key (item : Nat)
    (h : VECTOR_TASK_METRIC_COUNT ≤ item) (ctx : Ctx) (files : Files)
    (arg : StoreArg) (sysFails : Bool) :
    (vector_store 0 1 item ctx arg sysFails files).res = .errPMID ∧
    (vector_fetchCallBack 0 PM_IN_NULL item ctx files).res = .errPMID := by
  unfold VECTOR_TASK_METRIC_COUNT at h
  have h1 : item ∉ flamegraphItems := by
    intro hmem
    unfold flamegraphItems VECTOR_TASK_CPUFLAMEGRAPH VECTOR_TASK_PNAMECPUFLAMEGRAPH
      VECTOR_TASK_UNINLINEDCPUFLAMEGRAPH VECTOR_TASK_PAGEFAULTFLAMEGRAPH
      VECTOR_TASK_DISKIOFLAMEGRAPH VECTOR_TASK_IPCFLAMEGRAPH
      VECTOR_TASK_CSWFLAMEGRAPH VECTOR_TASK_OFFCPUFLAMEGRAPH
      VECTOR_TASK_OFFWAKEFLAMEGRAPH at hmem
    simp only [List.mem_cons, List.not_mem_nil, or_false] at hmem
    omega
  have h2 : item ≠ VECTOR_TASK_DISKLATENCYHEATMAP := by
    unfold VECTOR_TASK_DISKLATENCYHEATMAP
    omega
  have h3 : item ≠ VECTOR_TASK_JSTACKFLAMEGRAPH := by
    unfold VECTOR_TASK_JSTACKFLAMEGRAPH
    omega
  have h0 : ¬ ((0 : Nat) ≠ 0) := by decide
  have hn : ¬ ((1 : Nat) ≠ 1) := by decide
  have hi : ¬ (PM_IN_NULL ≠ PM_IN_NULL) := by decide
  constructor
  · unfold vector_store
    rw [if_neg h0, if_neg hn, if_neg h1, if_neg h2, if_neg h3]
  · unfold vector_fetchCallBack
    rw [if_neg h0, if_neg hi, if_neg h1, if_neg h2, if_neg h3]

/-- Witness for C6 at the concrete unknown item 11. -/
theorem C6_unknown_item_invalid_key_witness :
    (vector_store 0 1 11 3 none false emptyFiles).res = .errPMID ∧
    (vector_fetchCallBack 0 PM_IN_NULL 11 3 emptyFiles).res = .errPMID :=
  C6_unknown_item_invalid_key 11 (by decide) 3 emptyFiles none false

/-- C8: for every known task type whose key passes the busy check and
whose argument passes validation, the store reports success to the caller
even when the launch mechanism fails; the failure is only logged. -/
theorem C8_launch_failure_only_logged (item : Nat)
    (hitem : item < VECTOR_TASK_METRIC_COUNT) (ctx : Ctx) (arg : StoreArg)
    (files : Files) (sysFails : Bool)
    (harg : argBad arg = false)
    (hbusy : busyCheck files (taskname item) ctx = false) :
    (vector_store 0 1 item ctx arg sysFails files).res = .accepted ∧
    (vector_store 0 1 item ctx arg sysFails files).logged = sysFails ∧
    (vector_store 0 1 item ctx arg sysFails files).launched.isSome = true := by
  rcases known_item_cases item hitem with h | h | h
  · rw [store_flamegraph_unfold item h]
    simp [harg, hbusy]
  · subst h
    rw [taskname_heatmap] at hbusy
    rw [store_heatmap_unfold]
    simp [hbusy]
  · subst h
    rw [taskname_jstack] at hbusy
    rw [store_jstack_unfold]
    simp [hbusy]

/-- Witness for C8: an idle cpuflamegraph key, no argument, a failing
launch mechanism; the store still reports success and logs the failure. -/
theorem C8_launch_failure_only_logged_witness :
    (vector_store 0 1 0 4 none true emptyFiles).res = .accepted ∧
    (vector_store 0 1 0 4 none true emptyFiles).logged = true ∧
    (vector_store 0 1 0 4 none true emptyFiles).launched.isSome = true :=
  C8_launch_failure_only_logged 0 (by decide) 4 none emptyFiles true
    (by decide) (by decide)

/-- C10: for every known task type, if a record exists but its content
reads as the sentinel "UNKNOWN" (unreadable or too-short content), the
store rejects with Busy. -/
theorem C10_unknown_status_blocks_store (item : Nat)
    (hitem : item < VECTOR_TASK_METRIC_COUNT) (ctx : Ctx) (files : Files)
    (arg : StoreArg) (sysFails : Bool) (raw : Str)
    (harg : argBad arg = false)
    (hfile : files (taskname item) ctx = some raw)
    (hunk : getstatusContent (some raw) = chars "UNKNOWN") :
    (vector_store 0 1 item ctx arg sysFails files).res = .errAgain := by
  have hbusy : busyCheck files (taskname item) ctx = true := by
    unfold busyCheck hasstatus getstatus
    rw [hfile, hunk]
    simp only [Option.isSome_some, Bool.true_and]
    decide
  rw [store_known_res item hitem ctx arg sysFails files harg, if_pos hbusy]

/-- Witness for C10: a one-byte (hence UNKNOWN-reading) record blocks a
relaunch of cpuflamegraph. -/
theorem C10_unknown_status_blocks_store_witness :
    (vector_store 0 1 0 3 none false
       (singleFile (chars "cpuflamegraph") 3 (chars "X"))).res = .errAgain :=
  C10_unknown_status_blocks_store 0 (by decide) 3
    (singleFile (chars "cpuflamegraph") 3 (chars "X")) none false
    (chars "X") (by decide) (by decide) (by decide)

/-- C7: fetch is idempotent on any key whose record is absent or
non-terminal: with no record it returns IDLE and leaves the store
unchanged; with a non-terminal record, repeated fetches return the same
string and never delete or modify the record. -/
theorem C7_fetch_idempotent_nonterminal (item : Nat)
    (hitem : item < VECTOR_TASK_METRIC_COUNT) (ctx : Ctx) (files : Files) :
    (files (taskname item) ctx = none →
       (vector_fetchCallBack 0 PM_IN_NULL item ctx files).res = .ok (chars "IDLE") ∧
       (vector_fetchCallBack 0 PM_IN_NULL item ctx files).files = files) ∧
    (∀ s : Str, files (taskname item) ctx = some (recordLine s) → s ≠ [] →
       s.length + 1 ≤ BUFSZ →
       s ≠ chars "DONE" → ¬ (chars "DONE ") <+: s → ¬ (chars "ERROR") <+: s →
       (vector_fetchCallBack 0 PM_IN_NULL item ctx files).res = .ok s ∧
       (vector_fetchCallBack 0 PM_IN_NULL item ctx files).files = files ∧
       (vector_fetchCallBack 0 PM_IN_NULL item ctx
          (vector_fetchCallBack 0 PM_IN_NULL item ctx files).files).res = .ok s) := by
  constructor
  · intro hfile
    rw [fetch_idle item hitem ctx files hfile]
    exact ⟨rfl, rfl⟩
  · intro s hfile h0 hlen hd hd2 he
    rw [fetch_nonDone item hitem ctx files s hfile h0 hlen hd]
    refine ⟨rfl, rfl, ?_⟩
    show (vector_fetchCallBack 0 PM_IN_NULL item ctx files).res = .ok s
    rw [fetch_nonDone item hitem ctx files s hfile h0 hlen hd]

/-- Witness for C7: an idle pnamecpuflamegraph key, and a cpuflamegraph
key holding a non-terminal REQUESTED record. -/
theorem C7_fetch_idempotent_nonterminal_witness :
    ((vector_fetchCallBack 0 PM_IN_NULL 3 5 emptyFiles).res = .ok (chars "IDLE") ∧
     (vector_fetchCallBack 0 PM_IN_NULL 3 5 emptyFiles).files = emptyFiles) ∧
    ((vector_fetchCallBack 0 PM_IN_NULL 0 5
        (singleFile (chars "cpuflamegraph") 5 (recordLine (chars "REQUESTED")))).res
       = .ok (chars "REQUESTED") ∧
     (vector_fetchCallBack 0 PM_IN_NULL 0 5
        (singleFile (chars "cpuflamegraph") 5 (recordLine (chars "REQUESTED")))).files
       = singleFile (chars "cpuflamegraph") 5 (recordLine (chars "REQUESTED")) ∧
     (vector_fetchCallBack 0 PM_IN_NULL 0 5
        (vector_fetchCallBack 0 PM_IN_NULL 0 5
          (singleFile (chars "cpuflamegraph") 5
            (recordLine (chars "REQUESTED")))).files).res
       = .ok (chars "REQUESTED")) :=
  ⟨(C7_fetch_idempotent_nonterminal 3 (by decide) 5 emptyFiles).1 (by decide),
   (C7_fetch_idempotent_nonterminal 0 (by decide) 5
      (singleFile (chars "cpuflamegraph") 5 (recordLine (chars "REQUESTED")))).2
     (chars "REQUESTED") (by decide) (by decide) (by decide) (by decide)
     (by decide) (by decide)⟩

/-- C4: for every known task type, a record whose status begins with
"ERROR" is returned verbatim by fetch, the record remains in place, and a
subsequent store on the same key succeeds because the busy check treats
an error status as non-blocking. -/
theorem C4_error_durable_and_nonblocking (item : Nat)
    (hitem : item < VECTOR_TASK_METRIC_COUNT) (ctx : Ctx) (files : Files)
    (s : Str) (arg : StoreArg) (sysFails : Bool)
    (hfile : files (taskname item) ctx = some (recordLine s))
    (herr : (chars "ERROR") <+: s)
    (hlen : s.length + 1 ≤ BUFSZ)
    (harg : argBad arg = false) :
    (vector_fetchCallBack 0 PM_IN_NULL item ctx files).res = .ok s ∧
    (vector_fetchCallBack 0 PM_IN_NULL item ctx files).files = files ∧
    (vector_store 0 1 item ctx arg sysFails files).res = .accepted := by
  obtain ⟨t, ht⟩ := herr
  have h5 : (chars "ERROR").length = 5 := rfl
  have hslen : s.length = 5 + t.length := by
    rw [← ht, List.length_append, h5]
  have h0 : s ≠ [] := by
    intro hh
    rw [hh] at hslen
    have hnil : ([] : Str).length = 0 := rfl
    omega
  have hd : s ≠ chars "DONE" := by
    intro hh
    rw [hh] at hslen
    have h4 : (chars "DONE").length = 4 := rfl
    omega
  rw [fetch_nonDone item hitem ctx files s hfile h0 hlen hd]
  refine ⟨rfl, rfl, ?_⟩
  have hpre : (chars "ERROR").isPrefixOf s = true := by
    rw [List.isPrefixOf_iff_prefix]
    exact ⟨t, ht⟩
  have hbusy : busyCheck files (taskname item) ctx = false := by
    rw [busyCheck_recordLine files (taskname item) ctx s hfile h0 hlen, hpre]
    simp
  rw [store_known_res item hitem ctx arg sysFails files harg]
  simp [hbusy]

/-- Witness for C4: an "ERROR disk full" record on cpuflamegraph is
fetched verbatim, stays in place, and a relaunch is accepted. -/
theorem C4_error_durable_and_nonblocking_witness :
    (vector_fetchCallBack 0 PM_IN_NULL 0 2
       (singleFile (chars "cpuflamegraph") 2
         (recordLine (chars "ERROR disk full")))).res
      = .ok (chars "ERROR disk full") ∧
    (vector_fetchCallBack 0 PM_IN_NULL 0 2
       (singleFile (chars "cpuflamegraph") 2
         (recordLine (chars "ERROR disk full")))).files
      = singleFile (chars "cpuflamegraph") 2 (recordLine (chars "ERROR disk full")) ∧
    (vector_store 0 1 0 2 (some (chars "30")) false
       (singleFile (chars "cpuflamegraph") 2
         (recordLine (chars "ERROR disk full")))).res = .accepted :=
  C4_error_durable_and_nonblocking 0 (by decide) 2
    (singleFile (chars "cpuflamegraph") 2 (recordLine (chars "ERROR disk full")))
    (chars "ERROR disk full") (some (chars "30")) false
    (by decide) (by decide) (by decide) (by decide)

/-- C1 counterexample: on disklatencyheatmap with record "DONE", fetch
returns plain "DONE", which embeds neither the task type nor the session
identifier — the claimed synthesis does not happen for every task type. -/
theorem C1_counterexample :
    (vector_fetchCallBack 0 PM_IN_NULL VECTOR_TASK_DISKLATENCYHEATMAP 7
       (singleFile (chars "disklatencyheatmap") 7 (recordLine (chars "DONE")))).res
      = .ok (chars "DONE") ∧
    ¬ (chars "disklatencyheatmap" <:+: chars "DONE") ∧
    ¬ (natstr 7 <:+: chars "DONE") := by decide

/-- C1 amended: for every known task type with record exactly "DONE",
fetch deletes the record and a subsequent fetch returns IDLE; the nine
flamegraph tasks return the synthesized message embedding the task type
and session identifier, while disklatencyheatmap and jstackflamegraph
return "DONE" verbatim. -/
theorem C1_amended_done_synthesis (item : Nat)
    (hitem : item < VECTOR_TASK_METRIC_COUNT) (ctx : Ctx) (files : Files)
    (hfile : files (taskname item) ctx = some (recordLine (chars "DONE"))) :
    (vector_fetchCallBack 0 PM_IN_NULL item ctx files).files (taskname item) ctx
      = none ∧
    (vector_fetchCallBack 0 PM_IN_NULL item ctx
       (vector_fetchCallBack 0 PM_IN_NULL item ctx files).files).res
      = .ok (chars "IDLE") ∧
    (item ∈ flamegraphItems →
       (vector_fetchCallBack 0 PM_IN_NULL item ctx files).res
         = .ok (doneMessage (taskname item) ctx) ∧
       taskname item <:+: doneMessage (taskname item) ctx ∧
       natstr ctx <:+: doneMessage (taskname item) ctx) ∧
    ((item = VECTOR_TASK_DISKLATENCYHEATMAP ∨ item = VECTOR_TASK_JSTACKFLAMEGRAPH) →
       (vector_fetchCallBack 0 PM_IN_NULL item ctx files).res = .ok (chars "DONE")) := by
  have hrm : rmstatus files (taskname item) ctx (taskname item) ctx = none := by
    simp [rmstatus]
  rw [fetch_done item hitem ctx files hfile]
  refine ⟨hrm, ?_, ?_, ?_⟩
  · show (vector_fetchCallBack 0 PM_IN_NULL item ctx
       (rmstatus files (taskname item) ctx)).res = .ok (chars "IDLE")
    rw [fetch_idle item hitem ctx _ hrm]
  · intro h
    show (if item ∈ flamegraphItems then
            FetchRes.ok (doneMessage (taskname item) ctx)
          else FetchRes.ok (chars "DONE")) = _ ∧ _
    rw [if_pos h]
    refine ⟨rfl, ?_, ?_⟩
    · exact ⟨chars "DONE ",
        chars "/" ++ taskname item ++ chars "." ++ natstr ctx ++ chars ".svg",
        by simp [doneMessage]⟩
    · exact ⟨chars "DONE " ++ taskname item ++ chars "/" ++ taskname item ++
          chars ".", chars ".svg",
        by simp [doneMessage]⟩
  · intro h
    show (if item ∈ flamegraphItems then
            FetchRes.ok (doneMessage (taskname item) ctx)
          else FetchRes.ok (chars "DONE")) = _
    rcases h with h | h <;> subst h <;> rw [if_neg (by decide)]

/-- Witness for C1 at cpuflamegraph, session 5. -/
theorem C1_amended_done_synthesis_witness :
    (vector_fetchCallBack 0 PM_IN_NULL 0 5
       (singleFile (chars "cpuflamegraph") 5 (recordLine (chars "DONE")))).files
      (taskname 0) 5 = none ∧
    (vector_fetchCallBack 0 PM_IN_NULL 0 5
       (vector_fetchCallBack 0 PM_IN_NULL 0 5
         (singleFile (chars "cpuflamegraph") 5 (recordLine (chars "DONE")))).files).res
      = .ok (chars "IDLE") ∧
    ((0 : Nat) ∈ flamegraphItems →
       (vector_fetchCallBack 0 PM_IN_NULL 0 5
         (singleFile (chars "cpuflamegraph") 5 (recordLine (chars "DONE")))).res
         = .ok (doneMessage (taskname 0) 5) ∧
       taskname 0 <:+: doneMessage (taskname 0) 5 ∧
       natstr 5 <:+: doneMessage (taskname 0) 5) ∧
    (((0 : Nat) = VECTOR_TASK_DISKLATENCYHEATMAP ∨
        (0 : Nat) = VECTOR_TASK_JSTACKFLAMEGRAPH) →
       (vector_fetchCallBack 0 PM_IN_NULL 0 5
         (singleFile (chars "cpuflamegraph") 5 (recordLine (chars "DONE")))).res
         = .ok (chars "DONE")) :=
  C1_amended_done_synthesis 0 (by decide) 5
    (singleFile (chars "cpuflamegraph") 5 (recordLine (chars "DONE")))
    (by decide)

/-- C2 counterexample: a "DONE out.svg" record on cpuflamegraph is
returned verbatim but the record is NOT deleted — the claimed one-shot
delivery fails. -/
theorem C2_counterexample :
    (vector_fetchCallBack 0 PM_IN_NULL 0 5
       (singleFile (chars "cpuflamegraph") 5 (recordLine (chars "DONE out.svg")))).res
      = .ok (chars "DONE out.svg") ∧
    (vector_fetchCallBack 0 PM_IN_NULL 0 5
       (singleFile (chars "cpuflamegraph") 5 (recordLine (chars "DONE out.svg")))).files
      (chars "cpuflamegraph") 5 = some (recordLine (chars "DONE out.svg")) := by
  decide

/-- C2 amended: for every known task type, a record of the form
"DONE <argument>" is returned verbatim by fetch, but the record is left
in place (only exact "DONE" is consumed), so every subsequent fetch
returns it again — it is not delivered exactly once. -/
theorem C2_amended_done_arg_not_consumed (item : Nat)
    (hitem : item < VECTOR_TASK_METRIC_COUNT) (ctx : Ctx) (files : Files) (t : Str)
    (hfile : files (taskname item) ctx = some (recordLine (chars "DONE " ++ t)))
    (hlen : t.length + 6 ≤ BUFSZ) :
    (vector_fetchCallBack 0 PM_IN_NULL item ctx files).res
      = .ok (chars "DONE " ++ t) ∧
    (vector_fetchCallBack 0 PM_IN_NULL item ctx files).files = files ∧
    (vector_fetchCallBack 0 PM_IN_NULL item ctx
       (vector_fetchCallBack 0 PM_IN_NULL item ctx files).files).res
      = .ok (chars "DONE " ++ t) := by
  have h5 : (chars "DONE ").length = 5 := rfl
  have hslen : (chars "DONE " ++ t).length = 5 + t.length := by
    rw [List.length_append, h5]
  have h0 : chars "DONE " ++ t ≠ [] := by
    intro hh
    have hl := congrArg List.length hh
    rw [hslen] at hl
    have hnil : ([] : Str).length = 0 := rfl
    omega
  have hd : chars "DONE " ++ t ≠ chars "DONE" := by
    intro hh
    have hl := congrArg List.length hh
    rw [hslen] at hl
    have h4 : (chars "DONE").length = 4 := rfl
    omega
  have hlen' : (chars "DONE " ++ t).length + 1 ≤ BUFSZ := by
    rw [hslen]
    omega
  rw [fetch_nonDone item hitem ctx files _ hfile h0 hlen' hd]
  refine ⟨rfl, rfl, ?_⟩
  show (vector_fetchCallBack 0 PM_IN_NULL item ctx files).res = _
  rw [fetch_nonDone item hitem ctx files _ hfile h0 hlen' hd]

/-- Witness for C2 at cpuflamegraph, session 5, argument "out.svg". -/
theorem C2_amended_done_arg_not_consumed_witness :
    (vector_fetchCallBack 0 PM_IN_NULL 0 5
       (singleFile (chars "cpuflamegraph") 5
         (recordLine (chars "DONE " ++ chars "out.svg")))).res
      = .ok (chars "DONE " ++ chars "out.svg") ∧
    (vector_fetchCallBack 0 PM_IN_NULL 0 5
       (singleFile (chars "cpuflamegraph") 5
         (recordLine (chars "DONE " ++ chars "out.svg")))).files
      = singleFile (chars "cpuflamegraph") 5
          (recordLine (chars "DONE " ++ chars "out.svg")) ∧
    (vector_fetchCallBack 0 PM_IN_NULL 0 5
       (vector_fetchCallBack 0 PM_IN_NULL 0 5
         (singleFile (chars "cpuflamegraph") 5
           (recordLine (chars "DONE " ++ chars "out.svg")))).files).res
      = .ok (chars "DONE " ++ chars "out.svg") :=
  C2_amended_done_arg_not_consumed 0 (by decide) 5
    (singleFile (chars "cpuflamegraph") 5
      (recordLine (chars "DONE " ++ chars "out.svg")))
    (chars "out.svg") (by decide) (by decide)

/-- C3 counterexample: with a "DONE out.svg" record (a recognized
terminal form per the claim) and a valid argument, the store rejects with
Busy instead of proceeding. -/
theorem C3_counterexample :
    badinput (chars "30") = false ∧
    (vector_store 0 1 VECTOR_TASK_CPUFLAMEGRAPH 5 (some (chars "30")) false
       (singleFile (chars "cpuflamegraph") 5
         (recordLine (chars "DONE out.svg")))).res = .errAgain := by
  decide

/-- C3 amended: for every known task type with an existing record, store
rejects with Busy iff the status is neither exactly "DONE" nor prefixed
by "ERROR"; in particular "DONE <argument>" blocks as busy, while exact
"DONE" or any "ERROR"-prefixed status lets the new launch proceed. -/
theorem C3_amended_busy_iff (item : Nat)
    (hitem : item < VECTOR_TASK_METRIC_COUNT) (ctx : Ctx) (files : Files)
    (s : Str) (arg : StoreArg) (sysFails : Bool)
    (hfile : files (taskname item) ctx = some (recordLine s))
    (h0 : s ≠ []) (hlen : s.length + 1 ≤ BUFSZ)
    (harg : argBad arg = false) :
    ((vector_store 0 1 item ctx arg sysFails files).res = .errAgain ↔
       (s ≠ chars "DONE" ∧ ¬ (chars "ERROR") <+: s)) ∧
    ((s = chars "DONE" ∨ (chars "ERROR") <+: s) →
       (vector_store 0 1 item ctx arg sysFails files).res = .accepted) := by
  rw [store_known_res item hitem ctx arg sysFails files harg,
      busyCheck_recordLine files (taskname item) ctx s hfile h0 hlen]
  by_cases h1 : s = chars "DONE"
  · simp [h1]
  · by_cases h2 : (chars "ERROR") <+: s
    · have hb : (chars "ERROR").isPrefixOf s = true :=
        List.isPrefixOf_iff_prefix.mpr h2
      simp [h1, h2, hb]
    · have hb : (chars "ERROR").isPrefixOf s = false := by
        cases hB : (chars "ERROR").isPrefixOf s
        · rfl
        · exact absurd (List.isPrefixOf_iff_prefix.mp hB) h2
      simp [h1, h2, hb]

/-- Witness for C3 at cpuflamegraph, session 5, with a non-terminal
REQUESTED record and a valid argument. -/
theorem C3_amended_busy_iff_witness :
    ((vector_store 0 1 0 5 (some (chars "30")) false
        (singleFile (chars "cpuflamegraph") 5 (recordLine (chars "REQUESTED")))).res
       = .errAgain ↔
      (chars "REQUESTED" ≠ chars "DONE" ∧
       ¬ (chars "ERROR") <+: chars "REQUESTED")) ∧
    ((chars "REQUESTED" = chars "DONE" ∨
        (chars "ERROR") <+: chars "REQUESTED") →
      (vector_store 0 1 0 5 (some (chars "30")) false
        (singleFile (chars "cpuflamegraph") 5 (recordLine (chars "REQUESTED")))).res
       = .accepted) :=
  C3_amended_busy_iff 0 (by decide) 5
    (singleFile (chars "cpuflamegraph") 5 (recordLine (chars "REQUESTED")))
    (chars "REQUESTED") (some (chars "30")) false
    (by decide) (by decide) (by decide) (by decide)

/-- C5 counterexample: a store to disklatencyheatmap with the non-digit
argument "abc" is accepted, not rejected with InvalidArgument — the
validator is not applied to every known task type. -/
theorem C5_counterexample :
    badinput (chars "abc") = true ∧
    (vector_store 0 1 VECTOR_TASK_DISKLATENCYHEATMAP 0 (some (chars "abc")) false
       emptyFiles).res = .accepted := by
  decide

/-- C5 amended: only the nine argument-taking flamegraph task types
reject a non-digit argument with InvalidArgument; for them the empty
argument is never rejected, and disklatencyheatmap and jstackflamegraph
ignore the argument entirely and never reject with InvalidArgument. -/
theorem C5_amended_validation_scope (item : Nat)
    (hitem : item < VECTOR_TASK_METRIC_COUNT) (ctx : Ctx) (files : Files)
    (arg : StoreArg) (sysFails : Bool) :
    (item ∈ flamegraphItems → ∀ s : Str, arg = some s → badinput s = true →
       (vector_store 0 1 item ctx arg sysFails files).res = .errBadStore) ∧
    (arg = some [] →
       (vector_store 0 1 item ctx arg sysFails files).res ≠ .errBadStore) ∧
    ((item = VECTOR_TASK_DISKLATENCYHEATMAP ∨ item = VECTOR_TASK_JSTACKFLAMEGRAPH) →
       (vector_store 0 1 item ctx arg sysFails files).res ≠ .errBadStore) := by
  refine ⟨?_, ?_, ?_⟩
  · intro h s hargs hbad
    subst hargs
    rw [store_flamegraph_unfold item h]
    have hab : argBad (some s) = true := by simp [argBad, hbad]
    simp [hab]
  · intro hargs
    subst hargs
    have hab : argBad (some ([] : Str)) = false := by decide
    rw [store_known_res item hitem ctx (some []) sysFails files hab]
    by_cases hb : busyCheck files (taskname item) ctx <;> simp [hb]
  · intro h
    rcases h with h | h <;> subst h
    · rw [store_heatmap_unfold]
      by_cases hb : busyCheck files (chars "disklatencyheatmap") ctx <;> simp [hb]
    · rw [store_jstack_unfold]
      by_cases hb : busyCheck files (chars "jstackflamegraph") ctx <;> simp [hb]

/-- Witness for C5: a non-digit argument on cpuflamegraph is rejected
with InvalidArgument. -/
theorem C5_amended_validation_scope_witness :
    (vector_store 0 1 0 0 (some (chars "abc")) false emptyFiles).res
      = .errBadStore :=
  (C5_amended_validation_scope 0 (by decide) 0 emptyFiles
      (some (chars "abc")) false).1 (by decide) (chars "abc") rfl (by decide)

/-- C9 counterexample: content "AB" has no trailing newline, yet its last
character is stripped; and the readable, non-empty one-byte content "X"
maps to the sentinel UNKNOWN — both contradict the claim. -/
theorem C9_counterexample :
    getstatusContent (some (chars "AB")) = chars "A" ∧
    chars "A" ≠ chars "AB" ∧
    getstatusContent (some (chars "X")) = chars "UNKNOWN" ∧
    chars "X" ≠ [] := by
  decide

/-- C9 amended: the status read returns UNKNOWN exactly when the record
is absent (unreadable) or its content is at most one byte; otherwise it
returns the content with its final byte removed (the trailing newline
when present), reads being truncated to the 256-byte buffer. -/
theorem C9_amended_getstatus_behavior :
    getstatusContent none = chars "UNKNOWN" ∧
    (∀ s : Str, s.length ≤ 1 → getstatusContent (some s) = chars "UNKNOWN") ∧
    (∀ s : Str, 2 ≤ s.length → s.length ≤ BUFSZ →
       getstatusContent (some s) = s.dropLast) ∧
    (∀ s : Str, BUFSZ < s.length →
       getstatusContent (some s) = s.take (BUFSZ - 1)) := by
  refine ⟨rfl, ?_, ?_, ?_⟩
  · intro s hs
    have hmin : min s.length BUFSZ = s.length := by
      unfold BUFSZ
      omega
    simp only [getstatusContent, hmin]
    rw [if_neg (by omega)]
  · intro s h2 hB
    have hmin : min s.length BUFSZ = s.length := min_eq_left hB
    simp only [getstatusContent, hmin]
    rw [if_pos (by omega), List.dropLast_eq_take]
  · intro s hB
    have hmin : min s.length BUFSZ = BUFSZ := min_eq_right (Nat.le_of_lt hB)
    simp only [getstatusContent, hmin]
    rw [if_pos (by decide)]

/-- Witness for C9: a two-byte record with trailing newline reads as its
first byte, and a one-byte record reads as UNKNOWN. -/
theorem C9_amended_getstatus_behavior_witness :
    getstatusContent (some (chars "AB\n")) = chars "AB" ∧
    getstatusContent (some (chars "X")) = chars "UNKNOWN" :=
  ⟨by
     have h := C9_amended_getstatus_behavior.2.2.1 (chars "AB\n")
       (by decide) (by decide)
     rw [h]
     decide,
   C9_amended_getstatus_behavior.2.1 (chars "X") (by decide)⟩

end VectorPmda
